import Mathlib

/- Verification of the TrustChain-AI credit-risk dashboard.

   Shallow embedding of:
   - the spherical projection helpers and the ray-casting point-in-polygon
     test of src/components/Globe.tsx,
   - the country-name matching of Globe.tsx and CountryMap.tsx,
   - the GeoJSON border processing and country hit-testing of Globe.tsx,
   - the CountryMap projection bounds of CountryMap.tsx,
   - the mock borrower generator of src/utils/data.ts,
   - the backend SQL schemas (src/backend/db/BigDataInnovation.sql and the
     loan/documents schema file) and the create endpoint of the FastAPI
     backend.

   JavaScript numbers are modelled by real numbers where trigonometry is
   involved and by rationals elsewhere; Math.random() is modelled by an
   explicit stream of rational values. -/

namespace TrustChain

/-! ## Globe.tsx geometry helpers -/

/-- A THREE.Vector3 value. -/
structure Vec3 where
  x : ℝ
  y : ℝ
  z : ℝ

/-- Globe.tsx `latLngToVector3`:
    phi = (90 - lat) * (PI / 180), theta = (lng + 180) * (PI / 180),
    x = -(radius * sin phi * cos theta), z = radius * sin phi * sin theta,
    y = radius * cos phi. -/
noncomputable def latLngToVector3 (lat lng radius : ℝ) : Vec3 :=
  let phi := (90 - lat) * (Real.pi / 180)
  let theta := (lng + 180) * (Real.pi / 180)
  ⟨-(radius * Real.sin phi * Real.cos theta),
   radius * Real.cos phi,
   radius * Real.sin phi * Real.sin theta⟩

/-- Euclidean length of a THREE.Vector3 (`v.length()`). -/
noncomputable def length3 (v : Vec3) : ℝ := Real.sqrt (v.x ^ 2 + v.y ^ 2 + v.z ^ 2)

/-- The divisor used by THREE.Vector3.normalize: `this.length() || 1`, the
    length with a zero length replaced by 1. -/
noncomputable def normDenom (v : Vec3) : ℝ :=
  if length3 v = 0 then 1 else length3 v

/-- THREE.Vector3.normalize: `divideScalar(this.length() || 1)` — divide each
    component by the length, or by 1 when the length is 0. -/
noncomputable def normalize3 (v : Vec3) : Vec3 :=
  ⟨v.x / normDenom v, v.y / normDenom v, v.z / normDenom v⟩

/-- JavaScript Math.atan2(y, x): the angle of the point (x, y), in (-pi, pi].
    Modelled by the complex argument of x + y*i. -/
noncomputable def atan2 (y x : ℝ) : ℝ := Complex.arg (x + y * Complex.I)

set_option linter.unusedVariables false in
/-- Globe.tsx `vector3ToLatLng`: normalize the vector, then
    lat = 90 - (acos n.y * 180) / PI, lng = (atan2 n.z (-n.x) * 180) / PI.
    The radius parameter appears in the source but is unused by its body. -/
noncomputable def vector3ToLatLng (v : Vec3) (radius : ℝ) : ℝ × ℝ :=
  let n := normalize3 v
  let lat := 90 - (Real.arccos n.y * 180) / Real.pi
  let lng := (atan2 n.z (-n.x) * 180) / Real.pi
  (lat, lng)

/-! ## Globe.tsx point-in-polygon (ray casting) -/

/-- The loop-body test of Globe.tsx `isPointInPolygon` for one edge
    ((xi, yi), (xj, yj)):
    `((yi > y) !== (yj > y)) && (x < (xj - xi) * (y - yi) / (yj - yi) + xi)`. -/
def edgeCross (point : ℚ × ℚ) (e : (ℚ × ℚ) × (ℚ × ℚ)) : Bool :=
  (decide (e.1.2 > point.2) != decide (e.2.2 > point.2)) &&
    decide (point.1 < (e.2.1 - e.1.1) * (point.2 - e.1.2) / (e.2.2 - e.1.2) + e.1.1)

/-- The edges visited by the loop `for (i = 0, j = vs.length - 1; i < vs.length;
    j = i++)`: the pairs (vs[i], vs[j]) with j = i - 1, wrapping to the last
    vertex for i = 0. -/
def ringEdges (vs : List (ℚ × ℚ)) : List ((ℚ × ℚ) × (ℚ × ℚ)) :=
  match vs with
  | [] => []
  | v :: _ => vs.zip (vs.getLastD v :: vs)

/-- Globe.tsx `isPointInPolygon`: toggle `inside` on every crossing edge,
    starting from false. -/
def isPointInPolygon (point : ℚ × ℚ) (vs : List (ℚ × ℚ)) : Bool :=
  (ringEdges vs).foldl (fun inside e => if edgeCross point e then !inside else inside) false

/-- The standard even-odd ray-crossing relation: the horizontal ray going right
    from `point` crosses the edge ((xi, yi), (xj, yj)) when the edge straddles
    the horizontal line through the point (half-open rule on the endpoints) and
    the intersection of the edge's supporting line with that horizontal line
    lies strictly to the right of the point. -/
def RayCrossing (point : ℚ × ℚ) (e : (ℚ × ℚ) × (ℚ × ℚ)) : Prop :=
  ((e.1.2 ≤ point.2 ∧ point.2 < e.2.2) ∨ (e.2.2 ≤ point.2 ∧ point.2 < e.1.2)) ∧
    point.1 < (e.2.1 - e.1.1) * (point.2 - e.1.2) / (e.2.2 - e.1.2) + e.1.1

instance (point : ℚ × ℚ) (e : (ℚ × ℚ) × (ℚ × ℚ)) : Decidable (RayCrossing point e) := by
  unfold RayCrossing
  infer_instance

/-! ## Country-name matching (Globe.tsx and CountryMap.tsx) -/

/-- JavaScript `String.prototype.includes`, as containment of character lists. -/
def strIncludes (s sub : String) : Bool := decide (sub.toList <:+: s.toList)

/-- Globe.tsx countryData lookup (and the identical isSelected match):
    `n === s || (s === 'usa' && n === 'united states of america') ||
    (s === 'uk' && n === 'united kingdom') || (s === 'uae' && n.includes('arab emirates'))`
    with n, s the lowercased feature name and search string. -/
def globeCountryMatch (selected name : String) : Bool :=
  let n := name.toLower
  let s := selected.toLower
  (n == s) || (s == "usa" && n == "united states of america") ||
    (s == "uk" && n == "united kingdom") || (s == "uae" && strIncludes n "arab emirates")

/-- CountryMap.tsx feature lookup:
    `n === s || (s === 'usa' && n.includes('united states')) ||
    (s === 'uk' && n.includes('united kingdom')) || (s === 'uae' && n.includes('arab emirates'))`
    with n, s lowercased. -/
def mapCountryMatch (selected name : String) : Bool :=
  let n := name.toLower
  let s := selected.toLower
  (n == s) || (s == "usa" && strIncludes n "united states") ||
    (s == "uk" && strIncludes n "united kingdom") || (s == "uae" && strIncludes n "arab emirates")

/-! ## GeoJSON processing (Globe.tsx) -/

/-- A GeoJSON geometry as dispatched on by Globe.tsx: the code tests
    `geometry.type === 'Polygon'` and `geometry.type === 'MultiPolygon'`;
    every other type string falls through both branches. Coordinates are
    (lng, lat) pairs. -/
inductive Geometry where
  | polygon (coordinates : List (List (ℚ × ℚ)))
  | multiPolygon (coordinates : List (List (List (ℚ × ℚ))))
  | other (typeName : String)

/-- A GeoJSON feature: its resolved display name and its geometry. -/
structure Feature where
  name : String
  geometry : Geometry

def GLOBE_RADIUS : ℝ := 2.5

/-- Globe.tsx `processPolygon`: map each (lng, lat) ring vertex to a 3D point
    slightly above the globe surface. -/
noncomputable def processPolygon (coords : List (ℚ × ℚ)) : List Vec3 :=
  coords.map (fun pt => latLngToVector3 (pt.2 : ℝ) (pt.1 : ℝ) (GLOBE_RADIUS + 0.01))

/-- Globe.tsx `countryBorders` (the useMemo over geoJson.features): one border
    entry per Polygon feature, one entry per polygon of a MultiPolygon feature,
    nothing for any other geometry type. -/
noncomputable def countryBorders (features : List Feature) :
    List (String × List (List Vec3)) :=
  features.flatMap (fun f =>
    match f.geometry with
    | .polygon coords => [(f.name, coords.map processPolygon)]
    | .multiPolygon polys =>
        polys.map (fun polygon => (f.name, polygon.map processPolygon))
    | .other _ => [])

/-- Globe.tsx `getCountryAtPoint`, after the clicked 3D point has been turned
    into a (lng, lat) pair: scan the features in order; a Polygon feature
    matches when the point is in its first ring, a MultiPolygon feature when
    the point is in the first ring of any of its polygons; other geometry
    types never match. -/
def findCountryAt (features : List Feature) (lnglat : ℚ × ℚ) : Option String :=
  match features with
  | [] => none
  | f :: rest =>
    match f.geometry with
    | .polygon coords =>
        if isPointInPolygon lnglat (coords.headD []) then some f.name
        else findCountryAt rest lnglat
    | .multiPolygon polys =>
        if polys.any (fun polygon => isPointInPolygon lnglat (polygon.headD [])) then
          some f.name
        else findCountryAt rest lnglat
    | .other _ => findCountryAt rest lnglat

/-! ## Mock data generator (src/utils/data.ts) -/

/-- One entry of the CITIES constant. -/
structure City where
  city : String
  country : String
  lat : ℚ
  lng : ℚ

/-- The CITIES constant of src/utils/data.ts. -/
def CITIES : List City :=
  [⟨"New York", "USA", 40.7128, -74.0060⟩,
   ⟨"London", "UK", 51.5074, -0.1278⟩,
   ⟨"Singapore", "Singapore", 1.3521, 103.8198⟩,
   ⟨"Tokyo", "Japan", 35.6762, 139.6503⟩,
   ⟨"Sao Paulo", "Brazil", -23.5505, -46.6333⟩,
   ⟨"Lagos", "Nigeria", 6.5244, 3.3792⟩,
   ⟨"Mumbai", "India", 19.0760, 72.8777⟩,
   ⟨"Sydney", "Australia", -33.8688, 151.2093⟩,
   ⟨"Berlin", "Germany", 52.5200, 13.4050⟩,
   ⟨"Nairobi", "Kenya", -1.2921, 36.8219⟩,
   ⟨"Dubai", "UAE", 25.2048, 55.2708⟩,
   ⟨"San Francisco", "USA", 37.7749, -122.4194⟩,
   ⟨"Shanghai", "China", 31.2304, 121.4737⟩,
   ⟨"Mexico City", "Mexico", 19.4326, -99.1332⟩,
   ⟨"Cape Town", "South Africa", -33.9249, 18.4241⟩,
   ⟨"Kigali", "Rwanda", -1.9441, 30.0619⟩,
   ⟨"Huye", "Rwanda", -2.6000, 29.7333⟩,
   ⟨"Rubavu", "Rwanda", -1.67409, 29.2562⟩,
   ⟨"Musanze", "Rwanda", -1.5000, 29.6333⟩,
   ⟨"Rusizi", "Rwanda", -2.4833, 28.9000⟩,
   ⟨"Nyagatare", "Rwanda", -1.2974, 30.3283⟩]

inductive RiskLevel where
  | low
  | medium
  | high
deriving DecidableEq

/-- The nested location object of a Borrower. -/
structure GeoLocation where
  lat : ℚ
  lng : ℚ
  city : String
  country : String

/-- A Borrower record as produced by generateBorrowers. -/
structure Borrower where
  id : String
  name : String
  location : GeoLocation
  creditScore : ℤ
  riskLevel : RiskLevel
  spendingTrend : List ℤ
  repaymentHistory : ℤ
  mobileMoneyUsage : ℤ

def defaultCity : City := ⟨"", "", 0, 0⟩

def defaultBorrower : Borrower := ⟨"", "", ⟨0, 0, "", ""⟩, 0, .medium, [], 0, 0⟩

/-- The body of the generateBorrowers map callback for index i. Each call to
    Math.random() is one value of the stream `rand`, taken in the evaluation
    order of the source: lat jitter, lng jitter, creditScore, the six
    spendingTrend entries, repaymentHistory, mobileMoneyUsage. -/
def mkBorrower (i : ℕ) (rand : ℕ → ℚ) : Borrower :=
  let cityData := CITIES.getD (i % CITIES.length) defaultCity
  let jitter : ℚ := if cityData.country = "Rwanda" then 0.15 else 0.5
  let lat := cityData.lat + (rand 0 - 0.5) * jitter
  let lng := cityData.lng + (rand 1 - 0.5) * jitter
  let creditScore := ⌊rand 2 * (850 - 300) + 300⌋
  let riskLevel := RiskLevel.medium
  let riskLevel := if creditScore > 700 then RiskLevel.low else riskLevel
  let riskLevel := if creditScore < 550 then RiskLevel.high else riskLevel
  ⟨"BRW-" ++ toString (1000 + i),
   "User " ++ toString (1000 + i),
   ⟨lat, lng, cityData.city, cityData.country⟩,
   creditScore,
   riskLevel,
   (List.range 6).map (fun k => ⌊rand (3 + k) * 5000⌋ + 1000),
   ⌊rand 9 * 20⌋ + 80,
   ⌊rand 10 * 1000⌋⟩

/-- src/utils/data.ts generateBorrowers: one borrower per index of
    `Array.from({length: count})`, consuming 11 random values per borrower. -/
def generateBorrowers (count : ℕ) (rand : ℕ → ℚ) : List Borrower :=
  (List.range count).map (fun i => mkBorrower i (fun k => rand (11 * i + k)))

/-! ## Backend SQL schemas -/

/-- A FOREIGN KEY constraint: the local column, the referenced table, the
    referenced column. -/
structure ForeignKey where
  column : String
  refTable : String
  refColumn : String
deriving DecidableEq

/-- A CREATE TABLE statement: table name, column names in order, foreign
    keys. -/
structure SqlTable where
  name : String
  columns : List String
  foreignKeys : List ForeignKey
deriving DecidableEq

/-- The tables of src/backend/db/BigDataInnovation.sql, in file order. -/
def bigDataInnovationTables : List SqlTable :=
  [⟨"Region", ["region_id", "region_name"], []⟩,
   ⟨"Borrowers",
    ["borrower_id", "full_name", "email", "phone", "loan_amount", "loan_date",
     "credit_score", "risk_level", "region_id"],
    [⟨"region_id", "Region", "region_id"⟩]⟩]

/-- The tables of the repository's loan/documents SQL schema file (the one
    defining Historical_Transactions, Documents and the Report_Summary view),
    in file order. -/
def loanDocumentsTables : List SqlTable :=
  [⟨"Region", ["region_id", "region_name"], []⟩,
   ⟨"Borrowers",
    ["borrower_id", "first_name", "last_name", "email", "phone", "loan_amount",
     "loan_date", "decision", "region_id"],
    [⟨"region_id", "Region", "region_id"⟩]⟩,
   ⟨"Historical_Transactions",
    ["transaction_id", "borrower_id", "transaction_date", "transaction_amount",
     "transaction_type"],
    [⟨"borrower_id", "Borrowers", "borrower_id"⟩]⟩,
   ⟨"Documents",
    ["document_id", "borrower_id", "document_name", "document_type", "upload_date"],
    [⟨"borrower_id", "Borrowers", "borrower_id"⟩]⟩]

/-! ## Backend create endpoint (FastAPI/SQLAlchemy) -/

/-- The payload of POST /api/borrowers: the caller's fields. It carries no id
    field, mirroring the BorrowerCreate schema of the backend documentation. -/
structure BorrowerCreate where
  full_name : String
  phone : String
  loan_amount : ℚ
  region_id : Option ℕ

/-- The Borrowers table state: the next identity value and the stored rows,
    each row carrying its generated id. -/
structure DBState where
  nextId : ℕ
  rows : List (ℕ × BorrowerCreate)

/-- Modelled from the spec: main.py's create_borrower handler is shown only in
    the backend documentation, and the id assignment is the database's
    GENERATED ALWAYS AS IDENTITY / SQLite autoincrement semantics — the new
    row receives the next identity value, which then increments; the payload
    cannot influence the id. -/
def create_borrower (db : DBState) (p : BorrowerCreate) : DBState :=
  ⟨db.nextId + 1, db.rows ++ [(db.nextId, p)]⟩

/-- The empty Borrowers table; identity columns start at 1. -/
def emptyDB : DBState := ⟨1, []⟩

/-! ## Report_Summary view -/

/-- A row of the Region table. -/
structure RegionRow where
  region_id : ℕ
  region_name : String

/-- A row of the Borrowers table of the loan/documents schema. -/
structure BorrowerRow where
  borrower_id : ℕ
  first_name : String
  last_name : String
  decision : String
  region_id : Option ℕ

/-- A row of Historical_Transactions. -/
structure TransactionRow where
  transaction_id : ℕ
  borrower_id : ℕ
  transaction_amount : ℚ
  transaction_type : String

/-- A row of Documents. -/
structure DocumentRow where
  document_id : ℕ
  borrower_id : ℕ
  document_name : String
  document_type : String

/-- A row of the Report_Summary view. -/
structure ReportRow where
  borrower_id : ℕ
  first_name : String
  last_name : String
  decision : String
  decision_description : Option String
  region_name : Option String
  total_transactions : ℕ
  total_documents : ℕ

/-- The CASE expression of Report_Summary; no ELSE branch, so any other
    decision yields NULL. -/
def decisionDescription (decision : String) : Option String :=
  if decision = "Approved" then some "Loan approved successfully"
  else if decision = "Denied" then some "Loan application denied"
  else if decision = "Pending" then some "Loan under review"
  else none

/-- LEFT JOIN semantics for one side: no matching row yields a single NULL
    row, otherwise one row per match. -/
def leftJoinSide {α : Type} (xs : List α) : List (Option α) :=
  if xs.isEmpty then [none] else xs.map some

/-- The Report_Summary view: per borrower row (the GROUP BY key is led by the
    primary key borrower_id), LEFT JOIN Region, LEFT JOIN
    Historical_Transactions, LEFT JOIN Documents, then COUNT the non-null
    transaction_id and document_id values over the joined rows. -/
def reportSummary (regions : List RegionRow) (bs : List BorrowerRow)
    (txs : List TransactionRow) (docs : List DocumentRow) : List ReportRow :=
  bs.map (fun b =>
    let regionName := (regions.find? (fun r => b.region_id == some r.region_id)).map
      (fun r => r.region_name)
    let btxs := txs.filter (fun t => t.borrower_id == b.borrower_id)
    let bdocs := docs.filter (fun d => d.borrower_id == b.borrower_id)
    let joined := (leftJoinSide btxs).flatMap
      (fun t => (leftJoinSide bdocs).map (fun d => (t, d)))
    ⟨b.borrower_id, b.first_name, b.last_name, b.decision,
     decisionDescription b.decision, regionName,
     joined.countP (fun td => td.1.isSome),
     joined.countP (fun td => td.2.isSome)⟩)

/-! ## CountryMap projection (CountryMap.tsx) -/

/-- The projection bounds of CountryMap.tsx. -/
structure Bounds where
  minLng : ℚ
  maxLng : ℚ
  minLat : ℚ
  maxLat : ℚ

/-- CountryMap.tsx `expandBounds`: four independent comparisons updating the
    bounds. -/
def expandBounds (b : Bounds) (lng lat : ℚ) : Bounds :=
  ⟨if lng < b.minLng then lng else b.minLng,
   if lng > b.maxLng then lng else b.maxLng,
   if lat < b.minLat then lat else b.minLat,
   if lat > b.maxLat then lat else b.maxLat⟩

/-- The inverted initial bounds: minLng = 180, maxLng = -180, minLat = 90,
    maxLat = -90. -/
def initialBounds : Bounds := ⟨180, -180, 90, -90⟩

/-- Fold a list of (lng, lat) points into the bounds. -/
def expandAll (b : Bounds) (pts : List (ℚ × ℚ)) : Bounds :=
  pts.foldl (fun acc p => expandBounds acc p.1 p.2) b

/-- CountryMap.tsx bounds computation: the matched feature's geometry vertices
    first, then every borrower's (lng, lat); if nothing was seen
    (minLng > maxLng) fall back to the default box (-10..10, -10..10). -/
def mapBounds (geoPts borrowerPts : List (ℚ × ℚ)) : Bounds :=
  let b := expandAll (expandAll initialBounds geoPts) borrowerPts
  if b.minLng > b.maxLng then ⟨-10, 10, -10, 10⟩ else b

/-- The padding step: 15% of each span, with a minimum of 0.1, added on every
    side. -/
def paddedBounds (b : Bounds) : Bounds :=
  let paddingX := max ((b.maxLng - b.minLng) * 0.15) 0.1
  let paddingY := max ((b.maxLat - b.minLat) * 0.15) 0.1
  ⟨b.minLng - paddingX, b.maxLng + paddingX,
   b.minLat - paddingY, b.maxLat + paddingY⟩

/-- The SVG viewBox width. -/
def mapWidth : ℚ := 400

/-- `400 * ((maxLat - minLat) / (maxLng - minLng)) || 300`: the JS || replaces
    a zero (falsy) value by 300. -/
def mapHeight (b : Bounds) : ℚ :=
  let h := 400 * ((b.maxLat - b.minLat) / (b.maxLng - b.minLng))
  if h = 0 then 300 else h

/-- CountryMap.tsx `toX`. -/
def toX (b : Bounds) (lng : ℚ) : ℚ :=
  ((lng - b.minLng) / (b.maxLng - b.minLng)) * mapWidth

/-- CountryMap.tsx `toY`. -/
def toY (b : Bounds) (lat : ℚ) : ℚ :=
  mapHeight b - ((lat - b.minLat) / (b.maxLat - b.minLat)) * mapHeight b

/-- A concrete database: one borrower with two transactions and two
    documents. -/
def demoRegions : List RegionRow := [⟨1, "Kigali"⟩]

def demoBorrowers : List BorrowerRow := [⟨1, "Alice", "K", "Approved", some 1⟩]

def demoTxs : List TransactionRow :=
  [⟨1, 1, 100, "Deposit"⟩, ⟨2, 1, 50, "Withdrawal"⟩]

def demoDocs : List DocumentRow :=
  [⟨1, 1, "ID", "Identity"⟩, ⟨2, 1, "Statement", "Bank"⟩]

end TrustChain

namespace TrustChain

/-! ## Theorems -/

/-- C1: `latLngToVector3 lat lng r` is the point with
    x = -r * sin(phi) * cos(theta), y = r * cos(phi), z = r * sin(phi) * sin(theta),
    for phi = (90 - lat) degrees in radians and theta = (lng + 180) degrees in
    radians. -/
theorem latLngToVector3_formula (lat lng radius : ℝ) :
    latLngToVector3 lat lng radius =
      ⟨-(radius * Real.sin ((90 - lat) * (Real.pi / 180)) *
          Real.cos ((lng + 180) * (Real.pi / 180))),
        radius * Real.cos ((90 - lat) * (Real.pi / 180)),
        radius * Real.sin ((90 - lat) * (Real.pi / 180)) *
          Real.sin ((lng + 180) * (Real.pi / 180))⟩ := rfl

theorem edgeCross_eq_rayCrossing (point : ℚ × ℚ) (e : (ℚ × ℚ) × (ℚ × ℚ)) :
    edgeCross point e = decide (RayCrossing point e) := by
  rcases e with ⟨⟨xi, yi⟩, ⟨xj, yj⟩⟩
  simp only [edgeCross, RayCrossing]
  by_cases h1 : yi > point.2 <;> by_cases h2 : yj > point.2 <;>
    by_cases h3 : point.1 < (xj - xi) * (point.2 - yi) / (yj - yi) + xi <;>
    simp [h1, h2, h3, le_of_not_lt, not_lt_of_ge]

theorem foldl_toggle_parity (p : (ℚ × ℚ) × (ℚ × ℚ) → Bool)
    (l : List ((ℚ × ℚ) × (ℚ × ℚ))) (b : Bool) :
    l.foldl (fun inside e => if p e then !inside else inside) b =
      xor b (decide (Odd (l.countP p))) := by
  induction l generalizing b with
  | nil => simp
  | cons a l ih =>
    by_cases hp : p a
    · simp only [List.foldl_cons, hp, if_pos, List.countP_cons, hp, ih]
      have hparity : decide (Odd (List.countP p l)) = !decide (Even (List.countP p l)) := by
        by_cases he : Even (List.countP p l)
        · have ho : ¬Odd (List.countP p l) := by
            rw [Nat.not_odd_iff_even]
            exact he
          simp [he, ho]
        · have ho : Odd (List.countP p l) := Nat.not_even_iff_odd.mp he
          simp [he, ho]
      cases b <;> simp [Nat.odd_add_one, hparity]
    · simp [List.foldl_cons, hp, List.countP_cons, ih]

/-- C2: `isPointInPolygon` returns true exactly when the horizontal ray from the
    point crosses an odd number of the ring's edges (the even-odd rule), and it
    returns false on the empty vertex list. -/
theorem isPointInPolygon_evenOdd (point : ℚ × ℚ) (vs : List (ℚ × ℚ)) :
    (isPointInPolygon point vs = true ↔
      Odd ((ringEdges vs).countP (fun e => decide (RayCrossing point e)))) ∧
    isPointInPolygon point [] = false := by
  constructor
  · unfold isPointInPolygon
    have hpred : (ringEdges vs).countP (edgeCross point) =
        (ringEdges vs).countP (fun e => decide (RayCrossing point e)) := by
      apply List.countP_congr
      intro e _
      simp [edgeCross_eq_rayCrossing point e]
    rw [foldl_toggle_parity (edgeCross point) (ringEdges vs) false, hpred]
    cases h : decide (Odd ((ringEdges vs).countP fun e => decide (RayCrossing point e))) <;>
      simp_all
  · rfl

/-- C4: the Globe lookup matches exactly on case-insensitive equality or on the
    three hard-coded aliases (usa -> 'united states of america',
    uk -> 'united kingdom', uae -> names containing 'arab emirates'), and the
    CountryMap lookup matches exactly on case-insensitive equality or on the
    substring forms of the same three aliases; no other pair matches. -/
theorem countryMatch_characterization (selected name : String) :
    (globeCountryMatch selected name = true ↔
      (name.toLower = selected.toLower ∨
       (selected.toLower = "usa" ∧ name.toLower = "united states of america") ∨
       (selected.toLower = "uk" ∧ name.toLower = "united kingdom") ∨
       (selected.toLower = "uae" ∧ "arab emirates".toList <:+: name.toLower.toList))) ∧
    (mapCountryMatch selected name = true ↔
      (name.toLower = selected.toLower ∨
       (selected.toLower = "usa" ∧ "united states".toList <:+: name.toLower.toList) ∨
       (selected.toLower = "uk" ∧ "united kingdom".toList <:+: name.toLower.toList) ∨
       (selected.toLower = "uae" ∧ "arab emirates".toList <:+: name.toLower.toList))) := by
  constructor <;>
    · simp [globeCountryMatch, mapCountryMatch, strIncludes]
      tauto

theorem findCountryAt_names_polyType (features : List Feature) (p : ℚ × ℚ)
    (nm : String) (h : findCountryAt features p = some nm) :
    ∃ g ∈ features, g.name = nm ∧
      ((∃ cs, g.geometry = Geometry.polygon cs) ∨
       (∃ ps, g.geometry = Geometry.multiPolygon ps)) := by
  induction features with
  | nil => simp [findCountryAt] at h
  | cons g gs ih =>
    cases hg : g.geometry with
    | polygon cs =>
      by_cases hc : isPointInPolygon p (cs.headD []) = true
      · simp only [findCountryAt, hg, hc, if_true, Option.some.injEq] at h
        exact ⟨g, List.mem_cons_self g gs, h, Or.inl ⟨cs, hg⟩⟩
      · simp only [findCountryAt, hg, hc, if_false, Bool.false_eq_true] at h
        obtain ⟨g', hg', hprops⟩ := ih h
        exact ⟨g', List.mem_cons_of_mem g hg', hprops⟩
    | multiPolygon ps =>
      by_cases hc : ps.any (fun polygon => isPointInPolygon p (polygon.headD [])) = true
      · simp only [findCountryAt, hg, hc, if_true, Option.some.injEq] at h
        exact ⟨g, List.mem_cons_self g gs, h, Or.inr ⟨ps, hg⟩⟩
      · simp only [findCountryAt, hg, hc, if_false, Bool.false_eq_true] at h
        obtain ⟨g', hg', hprops⟩ := ih h
        exact ⟨g', List.mem_cons_of_mem g hg', hprops⟩
    | other s =>
      simp only [findCountryAt, hg] at h
      obtain ⟨g', hg', hprops⟩ := ih h
      exact ⟨g', List.mem_cons_of_mem g hg', hprops⟩

theorem findCountryAt_skips_feature (fs1 fs2 : List Feature) (f : Feature)
    (t : String) (hf : f.geometry = Geometry.other t) (p : ℚ × ℚ) :
    findCountryAt (fs1 ++ f :: fs2) p = findCountryAt (fs1 ++ fs2) p := by
  induction fs1 with
  | nil => simp [findCountryAt, hf]
  | cons g gs ih =>
    cases hg : g.geometry with
    | polygon cs => simp [findCountryAt, hg, ih]
    | multiPolygon ps => simp [findCountryAt, hg, ih]
    | other s => simp [findCountryAt, hg, ih]

/-- C10: a feature whose geometry type is neither Polygon nor MultiPolygon
    contributes nothing: inserting it anywhere changes neither the computed
    country borders nor the result of country hit-testing, and any name that
    hit-testing returns belongs to a Polygon or MultiPolygon feature of the
    remaining list. -/
theorem geometry_type_filter (fs1 fs2 : List Feature) (f : Feature) (t : String)
    (hf : f.geometry = Geometry.other t) :
    countryBorders (fs1 ++ f :: fs2) = countryBorders (fs1 ++ fs2) ∧
    (∀ p, findCountryAt (fs1 ++ f :: fs2) p = findCountryAt (fs1 ++ fs2) p) ∧
    (∀ p nm, findCountryAt (fs1 ++ f :: fs2) p = some nm →
       ∃ g ∈ fs1 ++ fs2, g.name = nm ∧
         ((∃ cs, g.geometry = Geometry.polygon cs) ∨
          (∃ ps, g.geometry = Geometry.multiPolygon ps))) := by
  refine ⟨?_, fun p => findCountryAt_skips_feature fs1 fs2 f t hf p, ?_⟩
  · simp [countryBorders, hf]
  · intro p nm h
    rw [findCountryAt_skips_feature fs1 fs2 f t hf p] at h
    exact findCountryAt_names_polyType (fs1 ++ fs2) p nm h

/-- Witness for C10 at the concrete feature ("Null Island", Point geometry). -/
theorem geometry_type_filter_witness :
    (Feature.mk "Null Island" (Geometry.other "Point")).geometry
        = Geometry.other "Point" ∧
    (countryBorders ([] ++ Feature.mk "Null Island" (Geometry.other "Point") :: [])
        = countryBorders ([] ++ []) ∧
     (∀ p, findCountryAt ([] ++ Feature.mk "Null Island" (Geometry.other "Point") :: []) p
        = findCountryAt ([] ++ []) p) ∧
     (∀ p nm,
        findCountryAt ([] ++ Feature.mk "Null Island" (Geometry.other "Point") :: []) p
          = some nm →
        ∃ g ∈ ([] ++ [] : List Feature), g.name = nm ∧
          ((∃ cs, g.geometry = Geometry.polygon cs) ∨
           (∃ ps, g.geometry = Geometry.multiPolygon ps)))) :=
  ⟨rfl, geometry_type_filter [] [] (Feature.mk "Null Island" (Geometry.other "Point"))
    "Point" rfl⟩

/-- C5: generateBorrowers returns exactly `count` borrowers and, for every
    index i below count, the i-th borrower's id, name, city and country do not
    depend on the random stream: the id is "BRW-" ++ (1000 + i), the name is
    "User " ++ (1000 + i), and the city and country come from CITIES at index
    i mod |CITIES|. -/
theorem generateBorrowers_stable_fields (count : ℕ) (r1 r2 : ℕ → ℚ) :
    (generateBorrowers count r1).length = count ∧
    (generateBorrowers count r2).length = count ∧
    (∀ i, i < count →
      ((generateBorrowers count r1).getD i defaultBorrower).id
          = "BRW-" ++ toString (1000 + i) ∧
      ((generateBorrowers count r2).getD i defaultBorrower).id
          = "BRW-" ++ toString (1000 + i) ∧
      ((generateBorrowers count r1).getD i defaultBorrower).name
          = "User " ++ toString (1000 + i) ∧
      ((generateBorrowers count r2).getD i defaultBorrower).name
          = "User " ++ toString (1000 + i) ∧
      ((generateBorrowers count r1).getD i defaultBorrower).location.city
          = (CITIES.getD (i % CITIES.length) defaultCity).city ∧
      ((generateBorrowers count r2).getD i defaultBorrower).location.city
          = (CITIES.getD (i % CITIES.length) defaultCity).city ∧
      ((generateBorrowers count r1).getD i defaultBorrower).location.country
          = (CITIES.getD (i % CITIES.length) defaultCity).country ∧
      ((generateBorrowers count r2).getD i defaultBorrower).location.country
          = (CITIES.getD (i % CITIES.length) defaultCity).country) := by
  refine ⟨by simp [generateBorrowers], by simp [generateBorrowers], ?_⟩
  intro i hi
  have key : ∀ r : ℕ → ℚ, (generateBorrowers count r).getD i defaultBorrower
      = mkBorrower i (fun k => r (11 * i + k)) := by
    intro r
    unfold generateBorrowers
    rw [List.getD_eq_getElem?_getD, List.getElem?_map,
      List.getElem?_eq_getElem (by simpa using hi), List.getElem_range]
    rfl
  rw [key r1, key r2]
  exact ⟨rfl, rfl, rfl, rfl, rfl, rfl, rfl, rfl⟩

/-- Witness for C5 at count = 2, i = 1, and the constant random streams 0 and
    1/2. -/
theorem generateBorrowers_stable_fields_witness :
    1 < 2 ∧
    (((generateBorrowers 2 (fun _ => 0)).getD 1 defaultBorrower).id
        = "BRW-" ++ toString (1000 + 1) ∧
     ((generateBorrowers 2 (fun _ => 1/2)).getD 1 defaultBorrower).id
        = "BRW-" ++ toString (1000 + 1) ∧
     ((generateBorrowers 2 (fun _ => 0)).getD 1 defaultBorrower).name
        = "User " ++ toString (1000 + 1) ∧
     ((generateBorrowers 2 (fun _ => 1/2)).getD 1 defaultBorrower).name
        = "User " ++ toString (1000 + 1) ∧
     ((generateBorrowers 2 (fun _ => 0)).getD 1 defaultBorrower).location.city
        = (CITIES.getD (1 % CITIES.length) defaultCity).city ∧
     ((generateBorrowers 2 (fun _ => 1/2)).getD 1 defaultBorrower).location.city
        = (CITIES.getD (1 % CITIES.length) defaultCity).city ∧
     ((generateBorrowers 2 (fun _ => 0)).getD 1 defaultBorrower).location.country
        = (CITIES.getD (1 % CITIES.length) defaultCity).country ∧
     ((generateBorrowers 2 (fun _ => 1/2)).getD 1 defaultBorrower).location.country
        = (CITIES.getD (1 % CITIES.length) defaultCity).country) :=
  ⟨by decide,
   (generateBorrowers_stable_fields 2 (fun _ => 0) (fun _ => 1/2)).2.2 1 (by decide)⟩

/-- C6 counterexample: the repository's loan/documents backend schema file
    declares four tables, not two. -/
theorem backend_schema_not_two_tables :
    loanDocumentsTables.map SqlTable.name
      = ["Region", "Borrowers", "Historical_Transactions", "Documents"] ∧
    loanDocumentsTables.length ≠ 2 := by decide

/-- C6 amended: the schema served by the create/read API
    (BigDataInnovation.sql, matching the SQLAlchemy models) is exactly the two
    tables Region and Borrowers, with the foreign key Borrowers.region_id
    referencing Region.region_id; the loan/documents schema file starts with
    the same two-table core (same foreign key) and adds two further tables,
    each keyed to Borrowers. -/
theorem backend_schema_two_table_core :
    bigDataInnovationTables.map SqlTable.name = ["Region", "Borrowers"] ∧
    bigDataInnovationTables.map SqlTable.foreignKeys
      = [[], [⟨"region_id", "Region", "region_id"⟩]] ∧
    (loanDocumentsTables.map SqlTable.name).take 2 = ["Region", "Borrowers"] ∧
    loanDocumentsTables.map SqlTable.foreignKeys
      = [[], [⟨"region_id", "Region", "region_id"⟩],
         [⟨"borrower_id", "Borrowers", "borrower_id"⟩],
         [⟨"borrower_id", "Borrowers", "borrower_id"⟩]] := by decide

theorem create_borrower_foldl_ids (ps : List BorrowerCreate) (db : DBState) :
    ((ps.foldl create_borrower db).rows.map Prod.fst)
      = db.rows.map Prod.fst ++ (List.range ps.length).map (fun k => db.nextId + k) := by
  induction ps generalizing db with
  | nil => simp
  | cons p ps ih =>
    rw [List.foldl_cons, ih]
    simp only [create_borrower, List.map_append, List.length_cons,
      List.range_succ_eq_map, List.map_cons, List.map_map, Function.comp_def]
    have heq : (fun k => db.nextId + 1 + k) = (fun k => db.nextId + Nat.succ k) := by
      funext k
      omega
    simp [heq, List.append_assoc, Nat.add_zero]

/-- C7: starting from the empty Borrowers table, any sequence of create calls
    stores rows whose generated ids are exactly 1, 2, ..., n, pairwise
    distinct, and the id list produced by a create never depends on the
    caller's payload. -/
theorem borrower_ids_generated_unique (ps : List BorrowerCreate) :
    ((ps.foldl create_borrower emptyDB).rows.map Prod.fst)
        = (List.range ps.length).map (fun k => k + 1) ∧
    ((ps.foldl create_borrower emptyDB).rows.map Prod.fst).Nodup ∧
    (∀ (db : DBState) (p q : BorrowerCreate),
      ((create_borrower db p).rows.map Prod.fst)
        = ((create_borrower db q).rows.map Prod.fst)) := by
  have h := create_borrower_foldl_ids ps emptyDB
  have hfun : (fun k => emptyDB.nextId + k) = (fun k : ℕ => k + 1) := by
    funext k
    simp [emptyDB, Nat.add_comm]
  rw [h, hfun]
  have hempty : emptyDB.rows.map Prod.fst = [] := rfl
  rw [hempty, List.nil_append]
  refine ⟨rfl, ?_, ?_⟩
  · exact (List.nodup_range ps.length).map (fun a b hab => by omega)
  · intro db p q
    simp [create_borrower]

/-- C8: the failing input — one borrower holding two Historical_Transactions
    rows and two Documents rows. The Report_Summary view reports
    total_transactions = 4 and total_documents = 4 (the fan-out of the two
    LEFT JOINs), while the true per-borrower counts are 2 and 2. -/
theorem reportSummary_fanout :
    (reportSummary demoRegions demoBorrowers demoTxs demoDocs).map
        (fun row => (row.borrower_id, row.total_transactions, row.total_documents))
      = [(1, 4, 4)] ∧
    demoTxs.countP (fun t => t.borrower_id == 1) = 2 ∧
    demoDocs.countP (fun d => d.borrower_id == 1) = 2 := by decide

theorem expandBounds_mono (b : Bounds) (lng lat : ℚ) :
    (expandBounds b lng lat).minLng ≤ b.minLng ∧
    b.maxLng ≤ (expandBounds b lng lat).maxLng ∧
    (expandBounds b lng lat).minLat ≤ b.minLat ∧
    b.maxLat ≤ (expandBounds b lng lat).maxLat := by
  simp only [expandBounds]
  refine ⟨?_, ?_, ?_, ?_⟩ <;> split <;> linarith

theorem expandBounds_contains (b : Bounds) (lng lat : ℚ) :
    (expandBounds b lng lat).minLng ≤ lng ∧ lng ≤ (expandBounds b lng lat).maxLng ∧
    (expandBounds b lng lat).minLat ≤ lat ∧ lat ≤ (expandBounds b lng lat).maxLat := by
  simp only [expandBounds]
  refine ⟨?_, ?_, ?_, ?_⟩ <;> split <;> linarith

theorem expandAll_mono (pts : List (ℚ × ℚ)) (b : Bounds) :
    (expandAll b pts).minLng ≤ b.minLng ∧
    b.maxLng ≤ (expandAll b pts).maxLng ∧
    (expandAll b pts).minLat ≤ b.minLat ∧
    b.maxLat ≤ (expandAll b pts).maxLat := by
  induction pts generalizing b with
  | nil => simp [expandAll]
  | cons q qs ih =>
    have h1 := expandBounds_mono b q.1 q.2
    have h2 := ih (expandBounds b q.1 q.2)
    simp only [expandAll, List.foldl_cons] at h2 ⊢
    exact ⟨h2.1.trans h1.1, h1.2.1.trans h2.2.1,
      h2.2.2.1.trans h1.2.2.1, h1.2.2.2.trans h2.2.2.2⟩

theorem expandAll_contains (pts : List (ℚ × ℚ)) (b : Bounds) (p : ℚ × ℚ)
    (hp : p ∈ pts) :
    (expandAll b pts).minLng ≤ p.1 ∧ p.1 ≤ (expandAll b pts).maxLng ∧
    (expandAll b pts).minLat ≤ p.2 ∧ p.2 ≤ (expandAll b pts).maxLat := by
  induction pts generalizing b with
  | nil => simp at hp
  | cons q qs ih =>
    rcases List.mem_cons.mp hp with hq | hq
    · subst hq
      have h1 := expandBounds_contains b p.1 p.2
      have h2 := expandAll_mono qs (expandBounds b p.1 p.2)
      simp only [expandAll, List.foldl_cons] at h2 ⊢
      exact ⟨h2.1.trans h1.1, h1.2.1.trans h2.2.1,
        h2.2.2.1.trans h1.2.2.1, h1.2.2.2.trans h2.2.2.2⟩
    · simp only [expandAll, List.foldl_cons]
      exact ih (expandBounds b q.1 q.2) hq

/-- C9: with at least one borrower, the bounds contain every borrower's
    (lng, lat), the padding is strictly positive, and therefore every
    borrower's projected marker (toX lng, toY lat) lies strictly inside the
    SVG viewBox: 0 < toX lng < width and 0 < toY lat < height. -/
theorem countryMap_markers_in_viewbox (geoPts borrowerPts : List (ℚ × ℚ))
    (p : ℚ × ℚ) (hp : p ∈ borrowerPts) :
    0 < toX (paddedBounds (mapBounds geoPts borrowerPts)) p.1 ∧
    toX (paddedBounds (mapBounds geoPts borrowerPts)) p.1 < mapWidth ∧
    0 < toY (paddedBounds (mapBounds geoPts borrowerPts)) p.2 ∧
    toY (paddedBounds (mapBounds geoPts borrowerPts)) p.2
      < mapHeight (paddedBounds (mapBounds geoPts borrowerPts)) := by
  obtain ⟨h1, h2, h3, h4⟩ :=
    expandAll_contains borrowerPts (expandAll initialBounds geoPts) p hp
  have hb : mapBounds geoPts borrowerPts
      = expandAll (expandAll initialBounds geoPts) borrowerPts := by
    unfold mapBounds
    rw [if_neg (not_lt.mpr (h1.trans h2))]
  set B := expandAll (expandAll initialBounds geoPts) borrowerPts with hB
  rw [hb]
  have hpX : (0.1 : ℚ) ≤ max ((B.maxLng - B.minLng) * 0.15) 0.1 := le_max_right _ _
  have hpY : (0.1 : ℚ) ≤ max ((B.maxLat - B.minLat) * 0.15) 0.1 := le_max_right _ _
  set pX := max ((B.maxLng - B.minLng) * 0.15) 0.1 with hpXdef
  set pY := max ((B.maxLat - B.minLat) * 0.15) 0.1 with hpYdef
  have hPB : paddedBounds B
      = ⟨B.minLng - pX, B.maxLng + pX, B.minLat - pY, B.maxLat + pY⟩ := rfl
  rw [hPB]
  have hsX : (0 : ℚ) < (B.maxLng + pX) - (B.minLng - pX) := by linarith
  have hsY : (0 : ℚ) < (B.maxLat + pY) - (B.minLat - pY) := by linarith
  have hnumX : (0 : ℚ) < p.1 - (B.minLng - pX) := by linarith
  have hnumY : (0 : ℚ) < p.2 - (B.minLat - pY) := by linarith
  have hratioX : (p.1 - (B.minLng - pX)) / ((B.maxLng + pX) - (B.minLng - pX)) < 1 :=
    (div_lt_one hsX).mpr (by linarith)
  have hratioY : (p.2 - (B.minLat - pY)) / ((B.maxLat + pY) - (B.minLat - pY)) < 1 :=
    (div_lt_one hsY).mpr (by linarith)
  have hratioXpos : 0 < (p.1 - (B.minLng - pX)) / ((B.maxLng + pX) - (B.minLng - pX)) :=
    div_pos hnumX hsX
  have hratioYpos : 0 < (p.2 - (B.minLat - pY)) / ((B.maxLat + pY) - (B.minLat - pY)) :=
    div_pos hnumY hsY
  have hh0 : (0 : ℚ) <
      400 * (((B.maxLat + pY) - (B.minLat - pY)) / ((B.maxLng + pX) - (B.minLng - pX))) := by
    positivity
  have hH : mapHeight ⟨B.minLng - pX, B.maxLng + pX, B.minLat - pY, B.maxLat + pY⟩
      = 400 * (((B.maxLat + pY) - (B.minLat - pY)) / ((B.maxLng + pX) - (B.minLng - pX))) := by
    unfold mapHeight
    rw [if_neg (ne_of_gt hh0)]
  refine ⟨?_, ?_, ?_, ?_⟩
  · unfold toX
    simp only [mapWidth]
    positivity
  · unfold toX
    simp only [mapWidth]
    calc (p.1 - (B.minLng - pX)) / ((B.maxLng + pX) - (B.minLng - pX)) * 400
        < 1 * 400 := by
          apply mul_lt_mul_of_pos_right hratioX
          norm_num
      _ = 400 := by norm_num
  · unfold toY
    rw [hH]
    nlinarith [hratioY, hh0, hratioYpos]
  · unfold toY
    rw [hH]
    nlinarith [hratioYpos, hh0]

/-- Witness for C9: a single borrower at (5, 5) with no geometry. -/
theorem countryMap_markers_in_viewbox_witness :
    ((5 : ℚ), (5 : ℚ)) ∈ [((5 : ℚ), (5 : ℚ))] ∧
    (0 < toX (paddedBounds (mapBounds [] [((5 : ℚ), (5 : ℚ))])) ((5 : ℚ), (5 : ℚ)).1 ∧
     toX (paddedBounds (mapBounds [] [((5 : ℚ), (5 : ℚ))])) ((5 : ℚ), (5 : ℚ)).1 < mapWidth ∧
     0 < toY (paddedBounds (mapBounds [] [((5 : ℚ), (5 : ℚ))])) ((5 : ℚ), (5 : ℚ)).2 ∧
     toY (paddedBounds (mapBounds [] [((5 : ℚ), (5 : ℚ))])) ((5 : ℚ), (5 : ℚ)).2
       < mapHeight (paddedBounds (mapBounds [] [((5 : ℚ), (5 : ℚ))]))) :=
  ⟨by decide,
   countryMap_markers_in_viewbox [] [((5 : ℚ), (5 : ℚ))] ((5 : ℚ), (5 : ℚ))
     (by decide)⟩

/-- C3 counterexample: at lat = 0, lng = 0, r = 1 the round trip returns
    longitude 180, not 0 (0 already lies in (-180, 180], so the claimed wrap
    of lng is 0). The code computes atan2(z, -x), which recovers
    theta = lng + 180 rather than lng. -/
theorem vector3ToLatLng_roundTrip_fails :
    (vector3ToLatLng (latLngToVector3 0 0 1) 1).2 = 180 ∧ (180 : ℝ) ≠ 0 := by
  refine ⟨?_, by norm_num⟩
  have hv : latLngToVector3 0 0 1 = ⟨1, 0, 0⟩ := by
    unfold latLngToVector3
    have hphi : ((90 : ℝ) - 0) * (Real.pi / 180) = Real.pi / 2 := by ring
    have htheta : ((0 : ℝ) + 180) * (Real.pi / 180) = Real.pi := by ring
    simp only [hphi, htheta, Real.sin_pi_div_two, Real.cos_pi_div_two,
      Real.sin_pi, Real.cos_pi]
    norm_num
  have hlen : length3 ⟨1, 0, 0⟩ = 1 := by
    unfold length3
    norm_num
  have hd : normDenom ⟨1, 0, 0⟩ = 1 := by
    unfold normDenom
    rw [hlen]
    norm_num
  have hn : normalize3 ⟨1, 0, 0⟩ = ⟨1, 0, 0⟩ := by
    unfold normalize3
    rw [hd]
    norm_num
  have harg : atan2 0 (-(1 : ℝ)) = Real.pi := by
    unfold atan2
    norm_num
  have hpair : ∀ (v : Vec3) (r : ℝ), vector3ToLatLng v r
      = (90 - (Real.arccos (normalize3 v).y * 180) / Real.pi,
         (atan2 (normalize3 v).z (-(normalize3 v).x) * 180) / Real.pi) :=
    fun _ _ => rfl
  rw [hv, hpair, hn]
  show (atan2 (0 : ℝ) (-(1 : ℝ)) * 180) / Real.pi = 180
  rw [harg]
  field_simp

/-- C3 amended: for -90 < lat < 90 and radius > 0 the round trip recovers the
    latitude exactly, but the longitude it returns is (lng + 180) wrapped into
    (-180, 180] — that is, lng + 180 - 360*k for some integer k — not lng
    itself. -/
theorem vector3ToLatLng_roundTrip (lat lng radius : ℝ)
    (hlat1 : -90 < lat) (hlat2 : lat < 90) (hr : 0 < radius) :
    (vector3ToLatLng (latLngToVector3 lat lng radius) radius).1 = lat ∧
    ∃ k : ℤ,
      (vector3ToLatLng (latLngToVector3 lat lng radius) radius).2
          = lng + 180 - 360 * k ∧
      -180 < (vector3ToLatLng (latLngToVector3 lat lng radius) radius).2 ∧
      (vector3ToLatLng (latLngToVector3 lat lng radius) radius).2 ≤ 180 := by
  have hπ := Real.pi_pos
  set φ := (90 - lat) * (Real.pi / 180) with hφdef
  set θ := (lng + 180) * (Real.pi / 180) with hθdef
  have hφ0 : 0 < φ := by
    apply mul_pos (by linarith) (by positivity)
  have h180 : (180 : ℝ) * (Real.pi / 180) = Real.pi := by
    field_simp
  have hφπ : φ < Real.pi := by
    have h1 : (90 - lat) * (Real.pi / 180) < 180 * (Real.pi / 180) :=
      mul_lt_mul_of_pos_right (show (90 - lat : ℝ) < 180 by linarith)
        (show (0 : ℝ) < Real.pi / 180 by positivity)
    rw [h180] at h1
    rw [hφdef]
    exact h1
  have hsφ : 0 < Real.sin φ := Real.sin_pos_of_pos_of_lt_pi hφ0 hφπ
  have hv : latLngToVector3 lat lng radius =
      ⟨-(radius * Real.sin φ * Real.cos θ), radius * Real.cos φ,
        radius * Real.sin φ * Real.sin θ⟩ := rfl
  have hlen : length3 (latLngToVector3 lat lng radius) = radius := by
    rw [hv]
    unfold length3
    have hsum : (-(radius * Real.sin φ * Real.cos θ)) ^ 2 +
        (radius * Real.cos φ) ^ 2 + (radius * Real.sin φ * Real.sin θ) ^ 2
        = radius ^ 2 := by
      have hθid := Real.sin_sq_add_cos_sq θ
      have hφid := Real.sin_sq_add_cos_sq φ
      linear_combination (radius ^ 2 * Real.sin φ ^ 2) * hθid + radius ^ 2 * hφid
    show Real.sqrt ((-(radius * Real.sin φ * Real.cos θ)) ^ 2 +
        (radius * Real.cos φ) ^ 2 + (radius * Real.sin φ * Real.sin θ) ^ 2) = radius
    rw [hsum, Real.sqrt_sq hr.le]
  have hrne : radius ≠ 0 := ne_of_gt hr
  have hdenom : normDenom (latLngToVector3 lat lng radius) = radius := by
    unfold normDenom
    rw [hlen, if_neg hrne]
  have hn : normalize3 (latLngToVector3 lat lng radius) =
      ⟨-(Real.sin φ * Real.cos θ), Real.cos φ, Real.sin φ * Real.sin θ⟩ := by
    unfold normalize3
    rw [hdenom, hv]
    have e1 : -(radius * Real.sin φ * Real.cos θ) / radius
        = -(Real.sin φ * Real.cos θ) := by
      field_simp
      ring
    have e2 : radius * Real.cos φ / radius = Real.cos φ := by
      field_simp
    have e3 : radius * Real.sin φ * Real.sin θ / radius
        = Real.sin φ * Real.sin θ := by
      field_simp
      ring
    show Vec3.mk (-(radius * Real.sin φ * Real.cos θ) / radius)
        (radius * Real.cos φ / radius)
        (radius * Real.sin φ * Real.sin θ / radius) = _
    rw [e1, e2, e3]
  have hpair : ∀ (v : Vec3) (r : ℝ), vector3ToLatLng v r
      = (90 - (Real.arccos (normalize3 v).y * 180) / Real.pi,
         (atan2 (normalize3 v).z (-(normalize3 v).x) * 180) / Real.pi) :=
    fun _ _ => rfl
  have hlatEq : (vector3ToLatLng (latLngToVector3 lat lng radius) radius).1 = lat := by
    rw [hpair, hn]
    show 90 - (Real.arccos (Real.cos φ) * 180) / Real.pi = lat
    rw [Real.arccos_cos hφ0.le hφπ.le, hφdef]
    field_simp
  have hatan : atan2 (Real.sin φ * Real.sin θ) (Real.sin φ * Real.cos θ)
      = toIocMod Real.two_pi_pos (-Real.pi) θ := by
    unfold atan2
    have h1 : ((Real.sin φ * Real.cos θ : ℝ) : ℂ) +
        ((Real.sin φ * Real.sin θ : ℝ) : ℂ) * Complex.I
        = (Real.sin φ : ℂ) * (Real.cos θ + Real.sin θ * Complex.I) := by
      push_cast
      ring
    rw [h1, Complex.arg_real_mul _ hsφ]
    have h2 : (Real.cos θ + Real.sin θ * Complex.I : ℂ)
        = Complex.exp (θ * Complex.I) := by
      rw [Complex.exp_mul_I]
      norm_num
    rw [h2, Complex.arg_exp_mul_I]
  have hlngEq : (vector3ToLatLng (latLngToVector3 lat lng radius) radius).2
      = toIocMod Real.two_pi_pos (-Real.pi) θ * 180 / Real.pi := by
    rw [hpair, hn]
    show (atan2 (Real.sin φ * Real.sin θ) (-(-(Real.sin φ * Real.cos θ))) * 180)
        / Real.pi = _
    rw [neg_neg, hatan]
  set θ' := toIocMod Real.two_pi_pos (-Real.pi) θ with hθ'def
  set k := toIocDiv Real.two_pi_pos (-Real.pi) θ with hkdef
  have hdiv : θ' + k • (2 * Real.pi) = θ := toIocMod_add_toIocDiv_zsmul _ _ _
  have hθ'eq : θ' = θ - (k : ℝ) * (2 * Real.pi) := by
    have := hdiv
    rw [zsmul_eq_mul] at this
    linarith
  have hmem := toIocMod_mem_Ioc Real.two_pi_pos (-Real.pi) θ
  rw [← hθ'def] at hmem
  obtain ⟨hgt, hle⟩ := Set.mem_Ioc.mp hmem
  have hle' : θ' ≤ Real.pi := by
    have : -Real.pi + 2 * Real.pi = Real.pi := by ring
    linarith [this ▸ hle]
  refine ⟨hlatEq, k, ?_, ?_, ?_⟩
  · rw [hlngEq, hθ'eq, hθdef]
    field_simp
    ring
  · rw [hlngEq]
    have hc : (0 : ℝ) < 180 / Real.pi := by positivity
    have h1 : -Real.pi * (180 / Real.pi) < θ' * (180 / Real.pi) :=
      mul_lt_mul_of_pos_right hgt hc
    have h2 : -Real.pi * (180 / Real.pi) = -180 := by
      field_simp
      ring
    have h3 : θ' * (180 / Real.pi) = θ' * 180 / Real.pi := by
      ring
    linarith [h2 ▸ h3 ▸ h1]
  · rw [hlngEq]
    have hc : (0 : ℝ) < 180 / Real.pi := by positivity
    have h1 : θ' * (180 / Real.pi) ≤ Real.pi * (180 / Real.pi) :=
      mul_le_mul_of_nonneg_right hle' hc.le
    have h2 : Real.pi * (180 / Real.pi) = 180 := by
      field_simp
    have h3 : θ' * (180 / Real.pi) = θ' * 180 / Real.pi := by
      ring
    linarith [h2 ▸ h3 ▸ h1]

/-- Witness for the amended C3 at lat = 30, lng = 40, r = 2. -/
theorem vector3ToLatLng_roundTrip_witness :
    (-90 < (30 : ℝ)) ∧ ((30 : ℝ) < 90) ∧ ((0 : ℝ) < 2) ∧
    ((vector3ToLatLng (latLngToVector3 30 40 2) 2).1 = 30 ∧
     ∃ k : ℤ,
       (vector3ToLatLng (latLngToVector3 30 40 2) 2).2 = 40 + 180 - 360 * k ∧
       -180 < (vector3ToLatLng (latLngToVector3 30 40 2) 2).2 ∧
       (vector3ToLatLng (latLngToVector3 30 40 2) 2).2 ≤ 180) :=
  ⟨by norm_num, by norm_num, by norm_num,
   vector3ToLatLng_roundTrip 30 40 2 (by norm_num) (by norm_num) (by norm_num)⟩

end TrustChain
